import Mathlib

/-!
# stringsrv0: string service and book catalog

A shallow embedding of `main.go`.

* Go `string` values are modelled by `String` (well-formed text, which is what the JSON
  decoders hand to the services); the builtin `len` is the number of bytes of the UTF-8 encoding.
* Go `int` is modelled by `Int`.
* The package-level variable `bookmap` is threaded explicitly: every method of `bookService`
  takes the current map and returns its result together with the map afterwards.
* `log.Println` is not modelled.
* `encodeResponse` returns the text it writes; the escape sequences `encoding/json` uses for
  characters it does not copy unchanged are a parameter.
-/

namespace Stringsrv

/-! ## Values of the Go runtime and standard library -/

/-- Go's `error` interface value, observed through its only method `Error() string`.
A nil error is `none : Option error`. -/
structure error where
  Error : String
deriving DecidableEq, Repr

/-- Go's `errors.New`. -/
def errors.New (text : String) : error := ⟨text⟩

/-- Go's builtin `len` on a string: the number of bytes of the string. -/
def len (s : String) : Int := s.utf8ByteSize

/-- Go's `unicode.ToUpper`: ASCII letters are shifted by `'a' - 'A'`, other ASCII runes are
returned unchanged, and every rune above `MaxASCII` is looked up in the Unicode case tables,
which are the parameter `caseTo`. -/
def unicode.ToUpper (caseTo : Char → Char) (r : Char) : Char :=
  if r.toNat ≤ 0x7F then
    if 'a'.toNat ≤ r.toNat ∧ r.toNat ≤ 'z'.toNat then Char.ofNat (r.toNat - ('a'.toNat - 'A'.toNat))
    else r
  else caseTo r

/-- Go's `strings.ToUpper` on well-formed text: every rune is mapped by `unicode.ToUpper`
(the ASCII fast path of the library computes the same string). -/
def strings.ToUpper (caseTo : Char → Char) (s : String) : String :=
  String.mk (s.data.map (unicode.ToUpper caseTo))

/-! ## The string service -/

/-- Source: `var ErrEmpty = errors.New("empty string")` -/
def ErrEmpty : error := errors.New "empty string"

/-- Source: `func (stringService) Uppercase(s string) (string, error)` -/
def stringService.Uppercase (caseTo : Char → Char) (s : String) : String × Option error :=
  if s = "" then ("", some ErrEmpty)
  else (strings.ToUpper caseTo s, none)

/-- Source: `func (stringService) Count(s string) int` -/
def stringService.Count (s : String) : Int :=
  len s

/-! ## The book service -/

/-- Source: `type Book struct` -/
structure Book where
  ID : Int
  Title : String
  Author : String
  Date : String
  Publisher : String
deriving DecidableEq, Repr

/-- The zero value of `Book`: `ID` 0 and four empty strings. -/
def Book.zero : Book := ⟨0, "", "", "", ""⟩

/-- Go's `map[string]Book`: a finite map with at most one entry per key, compared
extensionally. -/
abbrev Bookmap := Finmap (fun _ : String => Book)

/-- Go's builtin `len` on a map: the number of entries. -/
def Bookmap.len (m : Bookmap) : Int := m.keys.card

/-- Go's `strconv.Itoa`: the decimal digits of the integer, with a leading `-` when it is
negative. -/
def strconv.Itoa (i : Int) : String :=
  if i < 0 then "-" ++ Nat.repr i.natAbs else Nat.repr i.toNat

/-- Source: `var bookmap map[string]Book = make(map[string]Book)`: the catalog a process starts with. -/
def bookmap : Bookmap := ∅

/-- Source: `func (bookService) Books() map[string]Book`, as a function of the catalog before the call;
returns the map handed to the caller and the catalog after the call. -/
def bookService.Books (bookmap : Bookmap) : Bookmap × Bookmap :=
  if bookmap.len = 0 then
    let bookmap := bookmap.insert "1"
      { ID := 1
        Title := "A Spell for Chameleon"
        Author := "Piers Anthony"
        Date := "1977"
        Publisher := " Del Rey " }
    let bookmap := bookmap.insert "2"
      { ID := 2
        Title := "The Source of Magic"
        Author := "Piers Anthony"
        Date := "1979"
        Publisher := " Del Rey " }
    (bookmap, bookmap)
  else (bookmap, bookmap)

/-- Source: `func (bookService) SetBook(book Book) error`; returns the error and the catalog after the
call. -/
def bookService.SetBook (book : Book) (bookmap : Bookmap) : Option error × Bookmap :=
  let id := strconv.Itoa book.ID
  let bookmap := bookmap.insert id book
  (none, bookmap)

/-- Source: `func (bookService) GetBook(id int) (Book, error)`; a missing key reads as the zero value.
Returns the pair of results and the catalog after the call. -/
def bookService.GetBook (id : Int) (bookmap : Bookmap) : (Book × Option error) × Bookmap :=
  let strid := strconv.Itoa id
  let book := (bookmap.lookup strid).getD Book.zero
  ((book, none), bookmap)

/-! ## Service interfaces

An implementation may keep state of its own, of some type `σ`; each method takes the state
before the call and returns its results with the state after it. -/

/-- Source: `type StringService interface` -/
structure StringService (σ : Type) where
  Uppercase : String → σ → (String × Option error) × σ
  Count : String → σ → Int × σ

/-- Source: `type BookService interface` -/
structure BookService (σ : Type) where
  Books : σ → Bookmap × σ
  GetBook : Int → σ → (Book × Option error) × σ
  SetBook : Book → σ → Option error × σ

/-- Source: `svc := stringService{}` in `main`: the concrete string service, which has no state. -/
def svc (caseTo : Char → Char) : StringService Unit where
  Uppercase := fun s st => (stringService.Uppercase caseTo s, st)
  Count := fun s st => (stringService.Count s, st)

/-- Source: `bookSvc := bookService{}` in `main`: the concrete book service, whose state is the
package-level `bookmap`. -/
def bookSvc : BookService Bookmap where
  Books := bookService.Books
  GetBook := bookService.GetBook
  SetBook := bookService.SetBook

/-! ## Requests, responses and endpoints -/

structure uppercaseRequest where
  S : String
deriving DecidableEq, Repr

structure uppercaseResponse where
  V : String
  Err : String
deriving DecidableEq, Repr

structure countRequest where
  S : String
deriving DecidableEq, Repr

structure countResponse where
  V : Int
deriving DecidableEq, Repr

structure getBookRequest where
  ID : Int
deriving DecidableEq, Repr

structure getBookResponse where
  Book : Book
deriving DecidableEq, Repr

structure setBookRequest where
  Book : Book
deriving DecidableEq, Repr

structure setBookResponse where
  ok : Bool
deriving DecidableEq, Repr

structure booksRequest where
deriving DecidableEq, Repr

structure booksResponse where
  Books : Bookmap
deriving DecidableEq

/-- A value of type `interface{}`: nil, or a value of one of the request and response types of
the program together with its dynamic type. -/
inductive Interface where
  | nil
  | uppercaseRequest (v : Stringsrv.uppercaseRequest)
  | uppercaseResponse (v : Stringsrv.uppercaseResponse)
  | countRequest (v : Stringsrv.countRequest)
  | countResponse (v : Stringsrv.countResponse)
  | getBookRequest (v : Stringsrv.getBookRequest)
  | getBookResponse (v : Stringsrv.getBookResponse)
  | setBookRequest (v : Stringsrv.setBookRequest)
  | setBookResponse (v : Stringsrv.setBookResponse)
  | booksRequest (v : Stringsrv.booksRequest)
  | booksResponse (v : Stringsrv.booksResponse)
deriving DecidableEq

/-- go-kit's `endpoint.Endpoint`, `func(ctx, request interface{}) (interface{}, error)`, over a
service with state `σ`. `Except.error` is a run-time panic (a failed type assertion);
`Except.ok` carries the two results and the state after the call. -/
abbrev Endpoint (σ : Type) := Interface → σ → Except String ((Interface × Option error) × σ)

/-- Source: `func makeUppercaseEndpoint(svc StringService) endpoint.Endpoint` -/
def makeUppercaseEndpoint {σ : Type} (svc : StringService σ) : Endpoint σ :=
  fun request st =>
    match request with
    | .uppercaseRequest req =>
      match svc.Uppercase req.S st with
      | ((v, some err), st) => .ok ((.uppercaseResponse ⟨v, err.Error⟩, none), st)
      | ((v, none), st) => .ok ((.uppercaseResponse ⟨v, ""⟩, none), st)
    | _ => .error "interface conversion: interface \x7b\x7d is not main.uppercaseRequest"

/-- Source: `func makeCountEndpoint(svc StringService) endpoint.Endpoint` -/
def makeCountEndpoint {σ : Type} (svc : StringService σ) : Endpoint σ :=
  fun request st =>
    match request with
    | .countRequest req =>
      match svc.Count req.S st with
      | (v, st) => .ok ((.countResponse ⟨v⟩, none), st)
    | _ => .error "interface conversion: interface \x7b\x7d is not main.countRequest"

/-- Source: `func makeBooksEndpoint(svc BookService) endpoint.Endpoint`; the request is not inspected. -/
def makeBooksEndpoint {σ : Type} (svc : BookService σ) : Endpoint σ :=
  fun _request st =>
    match svc.Books st with
    | (b, st) => .ok ((.booksResponse ⟨b⟩, none), st)

/-- Source: `func makeBookEndpoint(svc BookService) endpoint.Endpoint` -/
def makeBookEndpoint {σ : Type} (svc : BookService σ) : Endpoint σ :=
  fun request st =>
    match request with
    | .getBookRequest req =>
      match svc.GetBook req.ID st with
      | ((book, some _), st) => .ok ((.getBookResponse ⟨book⟩, none), st)
      | ((book, none), st) => .ok ((.getBookResponse ⟨book⟩, none), st)
    | _ => .error "interface conversion: interface \x7b\x7d is not main.getBookRequest"

/-- Source: `func makeSetBookEndpoint(svc BookService) endpoint.Endpoint` -/
def makeSetBookEndpoint {σ : Type} (svc : BookService σ) : Endpoint σ :=
  fun request st =>
    match request with
    | .setBookRequest req =>
      match svc.SetBook req.Book st with
      | (some _, st) => .ok ((.setBookResponse ⟨true⟩, none), st)
      | (none, st) => .ok ((.setBookResponse ⟨true⟩, none), st)
    | _ => .error "interface conversion: interface \x7b\x7d is not main.setBookRequest"

/-! ## JSON encoding of the responses

`encodeResponse` hands the response to `json.NewEncoder(w).Encode`. The encoder of the
standard library is modelled on the values this program can give it: a struct is written as an
object with one member per field, in the order of declaration, where a field whose name is not
exported is skipped, a field tagged `omitempty` is skipped when its value is the empty value
of its type, and the key of a member is the name given in the field's `json` tag, or the
field's name when the tag gives none. -/

/-- The characters `encoding/json` copies into a string unescaped: the printable ASCII
characters other than the double quote (0x22), `&`, `<`, `>` and the backslash (0x5C), and
every character above ASCII other than U+2028 and U+2029. -/
def json.safe (c : Char) : Bool :=
  if c.toNat < 0x80 then
    decide (0x20 ≤ c.toNat) && c.toNat != 0x22 && c != '&' && c != '<' && c != '>' &&
      c.toNat != 0x5C
  else c.toNat != 0x2028 && c.toNat != 0x2029

/-- The JSON text of a Go string: the characters between double quotes, every character
outside `json.safe` replaced by its escape sequence, which is the parameter `escape`. -/
def json.string (escape : Char → String) (s : String) : String :=
  "\"" ++ String.join (s.data.map fun c => if json.safe c then c.toString else escape c) ++ "\""

/-- The JSON text of a Go `int`: its decimal digits. -/
def json.int (i : Int) : String := strconv.Itoa i

/-- The JSON text of a Go `bool`. -/
def json.bool (b : Bool) : String := if b then "true" else "false"

/-- A field of a struct value as `encoding/json` sees it: the name of the field, the key and
the `omitempty` option of its `json` tag (the key is empty when the field has no tag), whether
the value is the empty value of its type, and the JSON text of the value. -/
structure StructField where
  Name : String
  key : String
  omitempty : Bool
  isEmptyValue : Bool
  encoded : String
deriving DecidableEq, Repr

/-- A field is exported when its name starts with an upper-case letter. -/
def StructField.exported (f : StructField) : Bool :=
  match f.Name.data with
  | c :: _ => c.isUpper
  | [] => false

/-- The members of the object written for a struct: key and JSON text of every field that is
exported and not omitted. -/
def json.members (fields : List StructField) : List (String × String) :=
  fields.filterMap fun f =>
    if !f.exported then none
    else if f.omitempty && f.isEmptyValue then none
    else some (if f.key = "" then f.Name else f.key, f.encoded)

/-- The JSON text of an object with the given members. -/
def json.object (escape : Char → String) (members : List (String × String)) : String :=
  "\x7b" ++ ",".intercalate (members.map fun m => json.string escape m.1 ++ ":" ++ m.2) ++ "\x7d"

/-- The fields of `type Book struct`; none of them has a tag. -/
def Book.fields (escape : Char → String) (b : Book) : List StructField :=
  [ ⟨"ID", "", false, b.ID = 0, json.int b.ID⟩,
    ⟨"Title", "", false, b.Title = "", json.string escape b.Title⟩,
    ⟨"Author", "", false, b.Author = "", json.string escape b.Author⟩,
    ⟨"Date", "", false, b.Date = "", json.string escape b.Date⟩,
    ⟨"Publisher", "", false, b.Publisher = "", json.string escape b.Publisher⟩ ]

/-- The JSON text of a Book. -/
def Book.encode (escape : Char → String) (b : Book) : String :=
  json.object escape (json.members (b.fields escape))

/-- The JSON text of a `map[string]Book`: an object with one member per entry, the keys in
increasing order. -/
def Bookmap.encode (escape : Char → String) (m : Bookmap) : String :=
  json.object escape
    ((m.keys.sort (fun a b => a ≤ b)).filterMap fun k =>
      (m.lookup k).map fun b => (k, b.encode escape))

/-- The fields of `type uppercaseRequest struct`: `S string` tagged `json:"s"`. -/
def uppercaseRequest.fields (escape : Char → String) (r : uppercaseRequest) :
    List StructField :=
  [ ⟨"S", "s", false, r.S = "", json.string escape r.S⟩ ]

/-- The fields of `type uppercaseResponse struct`: `V string` tagged `json:"v"` and
`Err string` tagged `json:"err,omitempty"`. -/
def uppercaseResponse.fields (escape : Char → String) (r : uppercaseResponse) :
    List StructField :=
  [ ⟨"V", "v", false, r.V = "", json.string escape r.V⟩,
    ⟨"Err", "err", true, r.Err = "", json.string escape r.Err⟩ ]

/-- The fields of `type countRequest struct`: `S string` tagged `json:"s"`. -/
def countRequest.fields (escape : Char → String) (r : countRequest) : List StructField :=
  [ ⟨"S", "s", false, r.S = "", json.string escape r.S⟩ ]

/-- The fields of `type countResponse struct`: `V int` tagged `json:"v"`. -/
def countResponse.fields (r : countResponse) : List StructField :=
  [ ⟨"V", "v", false, r.V = 0, json.int r.V⟩ ]

/-- The fields of `type getBookRequest struct`: `ID int` tagged `json:"id"`. -/
def getBookRequest.fields (r : getBookRequest) : List StructField :=
  [ ⟨"ID", "id", false, r.ID = 0, json.int r.ID⟩ ]

/-- The fields of `type getBookResponse struct`: `Book Book` tagged `json:"book"`. -/
def getBookResponse.fields (escape : Char → String) (r : getBookResponse) :
    List StructField :=
  [ ⟨"Book", "book", false, false, r.Book.encode escape⟩ ]

/-- The fields of `type setBookRequest struct`: `Book Book` tagged `json:"book"`. -/
def setBookRequest.fields (escape : Char → String) (r : setBookRequest) : List StructField :=
  [ ⟨"Book", "book", false, false, r.Book.encode escape⟩ ]

/-- The fields of `type setBookResponse struct`: `ok bool` tagged `json:"ok"`. -/
def setBookResponse.fields (r : setBookResponse) : List StructField :=
  [ ⟨"ok", "ok", false, r.ok = false, json.bool r.ok⟩ ]

/-- The fields of `type booksRequest struct`: there are none. -/
def booksRequest.fields (_r : booksRequest) : List StructField :=
  []

/-- The fields of `type booksResponse struct`: `Books map[string]Book` tagged
`json:"books"`. -/
def booksResponse.fields (escape : Char → String) (r : booksResponse) : List StructField :=
  [ ⟨"Books", "books", false, r.Books.len = 0, r.Books.encode escape⟩ ]

/-- The fields `encoding/json` finds in a value of type `interface{}`, by its dynamic type. -/
def Interface.fields (escape : Char → String) : Interface → List StructField
  | .nil => []
  | .uppercaseRequest v => v.fields escape
  | .uppercaseResponse v => v.fields escape
  | .countRequest v => v.fields escape
  | .countResponse v => v.fields
  | .getBookRequest v => v.fields
  | .getBookResponse v => v.fields escape
  | .setBookRequest v => v.fields escape
  | .setBookResponse v => v.fields
  | .booksRequest v => v.fields
  | .booksResponse v => v.fields escape

/-- Go's `json.Marshal` on a value of type `interface{}`: `null` for nil, and for a struct the
object of its members. -/
def json.Marshal (escape : Char → String) (v : Interface) : String :=
  match v with
  | .nil => "null"
  | v => json.object escape (json.members (v.fields escape))

/-- Source: `func encodeResponse(_ context.Context, w http.ResponseWriter, response
interface{}) error`; returns the text written to `w`, which is the JSON text of the response
followed by a newline, and the error. -/
def encodeResponse (escape : Char → String) (response : Interface) : String × Option error :=
  (json.Marshal escape response ++ "\n", none)

/-! ## Definitions used to state the properties -/

/-- The first seed Book written by `Books`. -/
def seedBook1 : Book :=
  { ID := 1, Title := "A Spell for Chameleon", Author := "Piers Anthony", Date := "1977",
    Publisher := " Del Rey " }

/-- The second seed Book written by `Books`. -/
def seedBook2 : Book :=
  { ID := 2, Title := "The Source of Magic", Author := "Piers Anthony", Date := "1979",
    Publisher := " Del Rey " }

/-- The catalog holding exactly the two seed entries, under the keys "1" and "2". -/
def seedCatalog : Bookmap :=
  ((∅ : Bookmap).insert "1" seedBook1).insert "2" seedBook2

/-- The number a list of decimal digit characters stands for, read from the left on top of the
value `acc` of the digits already read. -/
def decimalValue (acc : Nat) (cs : List Char) : Nat :=
  cs.foldl (fun a c => a * 10 + (c.toNat - '0'.toNat)) acc

/-- The body a request is answered with: the endpoint is called on the decoded request and,
when it returns a response with a nil error, the response is written by `encodeResponse`.
The result is `none` when the endpoint panics or returns an error. -/
def responseBody {σ : Type} (escape : Char → String) (e : Endpoint σ) (request : Interface)
    (st : σ) : Option String :=
  match e request st with
  | .ok ((response, none), _) => some (encodeResponse escape response).1
  | _ => none

/-- A call of one of the three methods of `bookService`. -/
inductive Call where
  | Books
  | GetBook (id : Int)
  | SetBook (book : Book)
deriving DecidableEq, Repr

/-- The catalog after a call. -/
def Call.step (c : Call) (bm : Bookmap) : Bookmap :=
  match c with
  | .Books => (bookService.Books bm).2
  | .GetBook id => (bookService.GetBook id bm).2
  | .SetBook book => (bookService.SetBook book bm).2

/-- The catalog after a sequence of calls, the first call of the list made first. -/
def runCalls (calls : List Call) (bm : Bookmap) : Bookmap :=
  calls.foldl (fun st c => c.step st) bm

/-- Every entry of the catalog is stored under the decimal string of the ID of its Book. -/
def KeysMatchIDs (bm : Bookmap) : Prop :=
  ∀ (k : String) (b : Book), bm.lookup k = some b → k = strconv.Itoa b.ID

/-! ## Properties of the string service -/

theorem utf8Len_eq_sum (cs : List Char) :
    String.utf8Len cs = (cs.map Char.utf8Size).sum := by
  induction cs with
  | nil => rfl
  | cons c cs ih =>
    rw [String.utf8Len_cons, ih, List.map_cons, List.sum_cons, Nat.add_comm]

theorem len_eq_sum (s : String) : len s = ((s.data.map Char.utf8Size).sum : Nat) := by
  cases s with
  | mk cs =>
    simp only [len, String.utf8ByteSize, String.utf8ByteSize.go_eq, utf8Len_eq_sum]

theorem utf8Size_eq_one_iff (c : Char) : c.utf8Size = 1 ↔ c.toNat ≤ 0x7F := by
  have h : (c.val ≤ 0x7F) ↔ c.toNat ≤ 0x7F := by
    rw [UInt32.le_def]
    rfl
  unfold Char.utf8Size
  simp only []
  split_ifs <;> simp_all

theorem length_le_sum_utf8Size (l : List Char) : l.length ≤ (l.map Char.utf8Size).sum := by
  induction l with
  | nil => simp
  | cons c l ih =>
    have := Char.utf8Size_pos c
    simp only [List.map_cons, List.sum_cons, List.length_cons]
    omega

theorem sum_utf8Size_eq_length_iff (cs : List Char) :
    (cs.map Char.utf8Size).sum = cs.length ↔ ∀ c ∈ cs, c.toNat ≤ 0x7F := by
  induction cs with
  | nil => simp
  | cons c cs ih =>
    have h1 := Char.utf8Size_pos c
    have h2 := length_le_sum_utf8Size cs
    simp only [List.map_cons, List.sum_cons, List.length_cons, List.mem_cons, forall_eq_or_imp]
    rw [← ih, ← utf8Size_eq_one_iff]
    constructor
    · intro h; constructor <;> omega
    · rintro ⟨h3, h4⟩; omega

theorem ToUpper_ascii_example (caseTo : Char → Char) :
    strings.ToUpper caseTo "abc, Xyz 42" = "ABC, XYZ 42" := rfl

theorem unicode.ToUpper_rune_of_ascii (caseTo : Char → Char) (r : Char) (h : r.toNat ≤ 0x7F) :
    unicode.ToUpper caseTo r = r.toUpper := by
  have ha : 'a'.toNat = 97 := rfl
  have hz : 'z'.toNat = 122 := rfl
  have hA : 'A'.toNat = 65 := rfl
  simp only [unicode.ToUpper, Char.toUpper, if_pos h, ha, hz, hA, ge_iff_le]

theorem strings.ToUpper_of_ascii (caseTo : Char → Char) (s : String)
    (h : ∀ c ∈ s.data, c.toNat ≤ 0x7F) :
    strings.ToUpper caseTo s = String.mk (s.data.map Char.toUpper) := by
  unfold strings.ToUpper
  congr 1
  exact List.map_congr_left (fun c hc => unicode.ToUpper_rune_of_ascii caseTo c (h c hc))

/-- C1: for every non-empty string `s`, `stringService.Uppercase(s)` returns
`strings.ToUpper(s)`, the upper-cased form of `s`, together with a nil error; the returned text
has every character of `s` mapped by `unicode.ToUpper`, which on ASCII text replaces the
letters a to z by A to Z and keeps every other character. -/
theorem C1_Uppercase_nonempty (caseTo : Char → Char) (s : String) (h : s ≠ "") :
    stringService.Uppercase caseTo s = (strings.ToUpper caseTo s, none) ∧
    (stringService.Uppercase caseTo s).1.data = s.data.map (unicode.ToUpper caseTo) ∧
    ((∀ c ∈ s.data, c.toNat ≤ 0x7F) →
      (stringService.Uppercase caseTo s).1 = String.mk (s.data.map Char.toUpper)) := by
  have hU : stringService.Uppercase caseTo s = (strings.ToUpper caseTo s, none) := by
    simp [stringService.Uppercase, h]
  refine ⟨hU, ?_, ?_⟩
  · rw [hU]
    rfl
  · intro hs
    rw [hU]
    exact strings.ToUpper_of_ascii caseTo s hs

/-- C1 at the input `"abc"`, which is upper-cased to `"ABC"`. -/
theorem C1_Uppercase_nonempty_witness :
    "abc" ≠ "" ∧ stringService.Uppercase id "abc" = ("ABC", none) :=
  ⟨by decide, (C1_Uppercase_nonempty id "abc" (by decide)).1⟩

/-- C2: `stringService.Uppercase("")` returns the empty string and the error `ErrEmpty`, whose
message is "empty string"; and `Uppercase` returns a non-nil error only when its input is the
empty string. -/
theorem C2_Uppercase_empty (caseTo : Char → Char) :
    stringService.Uppercase caseTo "" = ("", some ErrEmpty) ∧
    ErrEmpty.Error = "empty string" ∧
    ∀ s : String, (stringService.Uppercase caseTo s).2 ≠ none → s = "" := by
  refine ⟨by simp [stringService.Uppercase], rfl, ?_⟩
  intro s hs
  by_contra hne
  simp [stringService.Uppercase, hne] at hs

/-- C3, as stated, fails: the one-character text "é" is encoded in two bytes, and
`stringService.Count` returns 2, not its character length 1. -/
theorem C3_Count_multibyte_counterexample :
    ¬ (stringService.Count "é" = ("é".length : Int)) := by
  decide

/-- C3, amended: for every text `s`, `stringService.Count(s)` is the number of bytes of `s`,
every character counted with the size of its UTF-8 encoding; it equals the character length of
`s` exactly when every character of `s` is ASCII; and `Count("")` returns 0. -/
theorem C3_Count_bytes (s : String) :
    stringService.Count s = ((s.data.map Char.utf8Size).sum : Nat) ∧
    (stringService.Count s = (s.length : Int) ↔ ∀ c ∈ s.data, c.toNat ≤ 0x7F) ∧
    stringService.Count "" = 0 := by
  refine ⟨len_eq_sum s, ?_, by decide⟩
  rw [stringService.Count, len_eq_sum, ← sum_utf8Size_eq_length_iff]
  cases s with
  | mk cs => exact Int.ofNat_inj

/-! ## Properties of `strconv.Itoa` -/

theorem Itoa_examples :
    strconv.Itoa 0 = "0" ∧ strconv.Itoa 7 = "7" ∧ strconv.Itoa 1979 = "1979" ∧
    strconv.Itoa (-305) = "-305" := by
  decide

theorem digitChar_value : ∀ m : Nat, m < 10 → (Nat.digitChar m).toNat - '0'.toNat = m := by
  decide

theorem digitChar_ne_minus : ∀ m : Nat, m < 10 → Nat.digitChar m ≠ '-' := by
  decide

theorem decimalValue_toDigitsCore (fuel : Nat) :
    ∀ (n : Nat) (ds : List Char), n < fuel →
      decimalValue 0 (Nat.toDigitsCore 10 fuel n ds) = decimalValue n ds := by
  induction fuel with
  | zero => intro n ds h; omega
  | succ fuel ih =>
    intro n ds h
    have hstep : ∀ a : Nat, decimalValue a (Nat.digitChar (n % 10) :: ds)
        = decimalValue (a * 10 + n % 10) ds := by
      intro a
      simp only [decimalValue, List.foldl_cons, digitChar_value (n % 10) (Nat.mod_lt n (by decide))]
    simp only [Nat.toDigitsCore]
    split_ifs with h0
    · rw [hstep]
      congr 1
      omega
    · rw [ih (n / 10) _ (by omega), hstep]
      congr 1
      omega

theorem decimalValue_toDigits (n : Nat) : decimalValue 0 (Nat.toDigits 10 n) = n := by
  rw [Nat.toDigits, decimalValue_toDigitsCore (n + 1) n [] (Nat.lt_succ_self n)]
  rfl

theorem toDigitsCore_head (fuel : Nat) :
    ∀ (n : Nat) (ds : List Char), ∃ m, m < 10 ∧ ∃ rest : List Char,
      Nat.toDigitsCore 10 (fuel + 1) n ds = Nat.digitChar m :: rest := by
  induction fuel with
  | zero =>
    intro n ds
    refine ⟨n % 10, Nat.mod_lt n (by decide), ds, ?_⟩
    simp [Nat.toDigitsCore]
  | succ fuel ih =>
    intro n ds
    rw [Nat.toDigitsCore]
    by_cases h0 : n / 10 = 0
    · rw [if_pos h0]
      exact ⟨n % 10, Nat.mod_lt n (by decide), ds, rfl⟩
    · rw [if_neg h0]
      exact ih (n / 10) _

theorem Nat_repr_injective : Function.Injective Nat.repr := by
  intro a b h
  have h2 : Nat.toDigits 10 a = Nat.toDigits 10 b := congrArg String.data h
  rw [← decimalValue_toDigits a, h2, decimalValue_toDigits]

theorem repr_ne_minus (a b : Nat) : "-" ++ Nat.repr a ≠ Nat.repr b := by
  intro h
  obtain ⟨m, hm, rest, hr⟩ := toDigitsCore_head b b []
  have h2 : '-' :: Nat.toDigits 10 a = Nat.toDigits 10 b := congrArg String.data h
  rw [Nat.toDigits.eq_1 10 b, hr] at h2
  exact digitChar_ne_minus m hm (List.cons.inj h2).1.symm

theorem strconv.Itoa_injective : Function.Injective strconv.Itoa := by
  intro i j h
  unfold strconv.Itoa at h
  split_ifs at h with hi hj hj
  · have h2 : Nat.repr i.natAbs = Nat.repr j.natAbs := by
      have := congrArg String.data h
      simp only [String.data_append, List.append_cancel_left_eq] at this
      exact String.ext this
    have := Nat_repr_injective h2
    omega
  · exact absurd h (repr_ne_minus _ _)
  · exact absurd h.symm (repr_ne_minus _ _)
  · have := Nat_repr_injective h
    omega

/-! ## Properties of the book service -/

theorem Bookmap.len_eq_zero_iff (m : Bookmap) : m.len = 0 ↔ m = ∅ := by
  unfold Bookmap.len
  rw [Int.natCast_eq_zero, Finset.card_eq_zero]
  constructor
  · intro h
    apply Finmap.ext_lookup
    intro k
    rw [Finmap.lookup_empty, Finmap.lookup_eq_none, ← Finmap.mem_keys, h]
    exact Finset.not_mem_empty k
  · rintro rfl
    exact Finmap.keys_empty

theorem Bookmap.insert_ne_empty (m : Bookmap) (k : String) (b : Book) : m.insert k b ≠ ∅ := by
  intro h
  have hk : k ∈ m.insert k b := Finmap.mem_insert.mpr (Or.inl rfl)
  rw [h] at hk
  exact Finmap.not_mem_empty hk

theorem Bookmap.keys_insert_same (m : Bookmap) (k : String) (b b' : Book) :
    (m.insert k b').keys = (m.insert k b).keys := by
  ext x
  simp only [Finmap.mem_keys, Finmap.mem_insert]

theorem Books_of_empty : bookService.Books ∅ = (seedCatalog, seedCatalog) := by
  decide

theorem Books_of_ne_empty (bm : Bookmap) (h : bm ≠ ∅) : bookService.Books bm = (bm, bm) := by
  have h0 : ¬ bm.len = 0 := fun h0 => h ((Bookmap.len_eq_zero_iff bm).mp h0)
  simp [bookService.Books, h0]

/-- C4: for every catalog state and every Book `b`, after `SetBook(b)` the map returned by
`Books()` contains the key `strconv.Itoa(b.ID)`, and the value stored under it is exactly `b`. -/
theorem C4_Books_after_SetBook (bm : Bookmap) (b : Book) :
    strconv.Itoa b.ID ∈ (bookService.Books (bookService.SetBook b bm).2).1 ∧
    (bookService.Books (bookService.SetBook b bm).2).1.lookup (strconv.Itoa b.ID) = some b := by
  have h : bookService.Books (bookService.SetBook b bm).2
      = (bm.insert (strconv.Itoa b.ID) b, bm.insert (strconv.Itoa b.ID) b) :=
    Books_of_ne_empty _ (Bookmap.insert_ne_empty bm _ b)
  rw [h]
  exact ⟨Finmap.mem_insert.mpr (Or.inl rfl), Finmap.lookup_insert bm⟩

/-- C5: for every catalog state and Books `b`, `b2` with the same ID, `SetBook(b)` followed by
`SetBook(b2)` leaves as many entries as `SetBook(b)` alone, the entry of that ID is `b2`, the
catalog is the one `SetBook(b2)` alone would leave (last writer wins), and repeating
`SetBook(b)` leaves the catalog as it was after the first `SetBook(b)`. -/
theorem C5_SetBook_overwrites (bm : Bookmap) (b b2 : Book) (h : b2.ID = b.ID) :
    (bookService.SetBook b2 (bookService.SetBook b bm).2).2.len
      = (bookService.SetBook b bm).2.len ∧
    (bookService.SetBook b2 (bookService.SetBook b bm).2).2.lookup (strconv.Itoa b.ID)
      = some b2 ∧
    (bookService.SetBook b2 (bookService.SetBook b bm).2).2 = (bookService.SetBook b2 bm).2 ∧
    (bookService.SetBook b (bookService.SetBook b bm).2).2 = (bookService.SetBook b bm).2 := by
  simp only [bookService.SetBook, h, Finmap.insert_insert, Finmap.lookup_insert, Bookmap.len,
    Bookmap.keys_insert_same bm (strconv.Itoa b.ID) b b2, and_self]

/-- C5 on the fresh catalog, with two Books of ID 3 that differ in their titles. -/
theorem C5_SetBook_overwrites_witness :
    (⟨3, "Castle Roogna", "Piers Anthony", "1979", "Del Rey"⟩ : Book).ID
      = (⟨3, "Night Mare", "Piers Anthony", "1983", "Del Rey"⟩ : Book).ID ∧
    (bookService.SetBook ⟨3, "Castle Roogna", "Piers Anthony", "1979", "Del Rey"⟩
      (bookService.SetBook ⟨3, "Night Mare", "Piers Anthony", "1983", "Del Rey"⟩ bookmap).2).2.len
      = 1 ∧
    (bookService.SetBook ⟨3, "Castle Roogna", "Piers Anthony", "1979", "Del Rey"⟩
      (bookService.SetBook ⟨3, "Night Mare", "Piers Anthony", "1983", "Del Rey"⟩ bookmap).2).2.lookup
        "3" = some ⟨3, "Castle Roogna", "Piers Anthony", "1979", "Del Rey"⟩ :=
  have hw := C5_SetBook_overwrites bookmap
    ⟨3, "Night Mare", "Piers Anthony", "1983", "Del Rey"⟩
    ⟨3, "Castle Roogna", "Piers Anthony", "1979", "Del Rey"⟩ rfl
  ⟨rfl, hw.1.trans (by decide), hw.2.1⟩

/-- C6: on the fresh catalog, `Books()` returns a map with exactly two entries, under the keys
"1" and "2", holding the seed Books of IDs 1 ("A Spell for Chameleon") and 2 ("The Source of
Magic"); a second call returns the same map and leaves the same catalog. -/
theorem C6_Books_fresh :
    (bookService.Books bookmap).1.len = 2 ∧
    (∀ k : String, k ∈ (bookService.Books bookmap).1 ↔ k = "1" ∨ k = "2") ∧
    (bookService.Books bookmap).1.lookup "1"
      = some ⟨1, "A Spell for Chameleon", "Piers Anthony", "1977", " Del Rey "⟩ ∧
    (bookService.Books bookmap).1.lookup "2"
      = some ⟨2, "The Source of Magic", "Piers Anthony", "1979", " Del Rey "⟩ ∧
    (bookService.Books (bookService.Books bookmap).2).1 = (bookService.Books bookmap).1 ∧
    (bookService.Books (bookService.Books bookmap).2).2 = (bookService.Books bookmap).2 := by
  refine ⟨by decide, ?_, by decide, by decide, by decide, by decide⟩
  intro k
  have h : (bookService.Books bookmap).1 = seedCatalog := by decide
  rw [h, seedCatalog, Finmap.mem_insert, Finmap.mem_insert]
  constructor
  · rintro (h2 | h1 | h0)
    · exact Or.inr h2
    · exact Or.inl h1
    · exact absurd h0 Finmap.not_mem_empty
  · rintro (h1 | h2)
    · exact Or.inr (Or.inl h1)
    · exact Or.inl h2

/-- C7: for every catalog state, `Books()` writes the two seed Books if and only if the catalog
is empty when it is called: on a non-empty catalog the returned map and the catalog afterwards
are the catalog before the call, on an empty one they are exactly the two seed entries; and
after `SetBook` of a Book with ID 3 on the fresh catalog, `Books()` returns that Book alone. -/
theorem C7_Books_seeds_iff_empty (bm : Bookmap) :
    (bm.len = 0 ↔ bm = ∅) ∧
    (bm ≠ ∅ → bookService.Books bm = (bm, bm)) ∧
    (bm = ∅ → bookService.Books bm = (seedCatalog, seedCatalog)) ∧
    ((bookService.Books bm).2 ≠ bm ↔ bm = ∅) ∧
    (∀ b : Book, b.ID = 3 →
      (bookService.Books (bookService.SetBook b bookmap).2).1 = Finmap.singleton "3" b) := by
  refine ⟨Bookmap.len_eq_zero_iff bm, Books_of_ne_empty bm, ?_, ?_, ?_⟩
  · rintro rfl
    exact Books_of_empty
  · constructor
    · intro h
      by_contra hne
      exact h (by rw [Books_of_ne_empty bm hne])
    · rintro rfl
      rw [Books_of_empty]
      decide
  · intro b hb
    have h : bookService.Books (bookService.SetBook b bookmap).2
        = (bookmap.insert (strconv.Itoa b.ID) b, bookmap.insert (strconv.Itoa b.ID) b) :=
      Books_of_ne_empty _ (Bookmap.insert_ne_empty bookmap _ b)
    rw [h, hb]
    rfl

/-- C8: for every catalog state and every integer `id` whose key `strconv.Itoa(id)` is not in
the catalog, `GetBook(id)` returns the zero-valued Book (ID 0 and four empty strings) and a nil
error; and `GetBook` returns a nil error for every id and every catalog state. -/
theorem C8_GetBook_absent (bm : Bookmap) (id : Int) (h : strconv.Itoa id ∉ bm) :
    (bookService.GetBook id bm).1 = (⟨0, "", "", "", ""⟩, none) ∧
    ∀ (id2 : Int) (bm2 : Bookmap), (bookService.GetBook id2 bm2).1.2 = none := by
  refine ⟨?_, fun _ _ => rfl⟩
  simp only [bookService.GetBook, Finmap.lookup_eq_none.mpr h]
  rfl

/-- C8 on the seeded catalog, which has no entry for the id 7. -/
theorem C8_GetBook_absent_witness :
    strconv.Itoa 7 ∉ seedCatalog ∧
    (bookService.GetBook 7 seedCatalog).1 = (⟨0, "", "", "", ""⟩, none) :=
  ⟨by decide, (C8_GetBook_absent seedCatalog 7 (by decide)).1⟩

/-- C9, evaluated on the code: from the initial process state the GetBook call unit answers
the request `{"id":1}` with the zero-valued Book, whose title is empty, and leaves the catalog
empty; the seed Book of ID 1 is only there once `Books()` has run. -/
theorem C9_Book_endpoint_fresh :
    makeBookEndpoint bookSvc (.getBookRequest ⟨1⟩) bookmap
      = .ok ((.getBookResponse ⟨⟨0, "", "", "", ""⟩⟩, none), bookmap) ∧
    (bookService.GetBook 1 bookmap).1.1.Title ≠ "A Spell for Chameleon" ∧
    makeBookEndpoint bookSvc (.getBookRequest ⟨1⟩) (bookService.Books bookmap).2
      = .ok ((.getBookResponse
          ⟨⟨1, "A Spell for Chameleon", "Piers Anthony", "1977", " Del Rey "⟩⟩, none),
        seedCatalog) :=
  ⟨rfl, by decide, rfl⟩

/-! ## Properties of the endpoints -/

/-- C10: for every implementation of the two service interfaces and every request of the
right type, each of the five endpoints returns a response with a nil endpoint error; the
response of the Uppercase endpoint has `V` equal to the value the service returned, and `Err`
equal to the message of the service's error when there is one and to the empty string when
there is none. -/
theorem C10_endpoints_return_nil_error {σ τ : Type} (strSvc : StringService σ)
    (bkSvc : BookService τ) :
    (∀ (req : uppercaseRequest) (st : σ), ∃ resp : uppercaseResponse,
      makeUppercaseEndpoint strSvc (.uppercaseRequest req) st
        = .ok ((.uppercaseResponse resp, none), (strSvc.Uppercase req.S st).2) ∧
      resp.V = (strSvc.Uppercase req.S st).1.1 ∧
      (∀ e : error, (strSvc.Uppercase req.S st).1.2 = some e → resp.Err = e.Error) ∧
      ((strSvc.Uppercase req.S st).1.2 = none → resp.Err = "")) ∧
    (∀ (req : countRequest) (st : σ),
      makeCountEndpoint strSvc (.countRequest req) st
        = .ok ((.countResponse ⟨(strSvc.Count req.S st).1⟩, none), (strSvc.Count req.S st).2)) ∧
    (∀ (request : Interface) (st : τ),
      makeBooksEndpoint bkSvc request st
        = .ok ((.booksResponse ⟨(bkSvc.Books st).1⟩, none), (bkSvc.Books st).2)) ∧
    (∀ (req : getBookRequest) (st : τ),
      makeBookEndpoint bkSvc (.getBookRequest req) st
        = .ok ((.getBookResponse ⟨(bkSvc.GetBook req.ID st).1.1⟩, none),
            (bkSvc.GetBook req.ID st).2)) ∧
    (∀ (req : setBookRequest) (st : τ),
      makeSetBookEndpoint bkSvc (.setBookRequest req) st
        = .ok ((.setBookResponse ⟨true⟩, none), (bkSvc.SetBook req.Book st).2)) := by
  refine ⟨?_, ?_, ?_, ?_, ?_⟩
  · intro req st
    rcases hU : strSvc.Uppercase req.S st with ⟨⟨v, err⟩, st2⟩
    cases err with
    | none =>
      refine ⟨⟨v, ""⟩, ?_, rfl, ?_, fun _ => rfl⟩
      · simp only [makeUppercaseEndpoint, hU]
      · intro e he
        cases he
    | some e0 =>
      refine ⟨⟨v, e0.Error⟩, ?_, rfl, ?_, ?_⟩
      · simp only [makeUppercaseEndpoint, hU]
      · intro e he
        cases he
        rfl
      · intro he
        cases he
  · intro req st
    rfl
  · intro request st
    rfl
  · intro req st
    rcases hG : bkSvc.GetBook req.ID st with ⟨⟨book, err⟩, st2⟩
    cases err <;> simp only [makeBookEndpoint, hG]
  · intro req st
    rcases hS : bkSvc.SetBook req.Book st with ⟨err, st2⟩
    cases err <;> simp only [makeSetBookEndpoint, hS]

/-! ## Frame and round trip of `SetBook` and `GetBook` -/

/-- C11: for every catalog state and every Book `b`, `SetBook(b)` returns a nil error and
changes only the entry of `b`'s own ID: every other key keeps its entry, and for every integer
`id` different from `b.ID`, `GetBook(id)` returns the same Book after `SetBook(b)` as before. -/
theorem C11_SetBook_frame (bm : Bookmap) (b : Book) (id : Int) (h : id ≠ b.ID) :
    (bookService.SetBook b bm).1 = none ∧
    (∀ k : String, k ≠ strconv.Itoa b.ID →
      (bookService.SetBook b bm).2.lookup k = bm.lookup k) ∧
    (bookService.GetBook id (bookService.SetBook b bm).2).1 = (bookService.GetBook id bm).1 := by
  have hk : strconv.Itoa id ≠ strconv.Itoa b.ID := fun e => h (strconv.Itoa_injective e)
  refine ⟨rfl, fun k hne => Finmap.lookup_insert_of_ne bm hne, ?_⟩
  simp only [bookService.GetBook, bookService.SetBook, Finmap.lookup_insert_of_ne bm hk]

/-- C11 on the seeded catalog: writing a Book of ID 3 leaves the answer for the id 1 as it
was, the first seed Book. -/
theorem C11_SetBook_frame_witness :
    (1 : Int) ≠ (⟨3, "Castle Roogna", "Piers Anthony", "1979", "Del Rey"⟩ : Book).ID ∧
    (bookService.GetBook 1
      (bookService.SetBook ⟨3, "Castle Roogna", "Piers Anthony", "1979", "Del Rey"⟩
        seedCatalog).2).1 = (seedBook1, none) :=
  ⟨by decide,
    (C11_SetBook_frame seedCatalog ⟨3, "Castle Roogna", "Piers Anthony", "1979", "Del Rey"⟩ 1
      (by decide)).2.2.trans (by decide)⟩

/-- C12: for every catalog state and every Book `b`, of any integer ID, after `SetBook(b)`
the call `GetBook(b.ID)` returns exactly `b` with a nil error. -/
theorem C12_GetBook_after_SetBook (bm : Bookmap) (b : Book) :
    (bookService.GetBook b.ID (bookService.SetBook b bm).2).1 = (b, none) := by
  simp only [bookService.GetBook, bookService.SetBook, Finmap.lookup_insert, Option.getD_some]

/-! ## Response bodies -/

theorem Uppercase_body_abc (caseTo : Char → Char) (escape : Char → String) :
    responseBody escape (makeUppercaseEndpoint (svc caseTo)) (.uppercaseRequest ⟨"abc"⟩) ()
      = some "\x7b\"v\":\"ABC\"\x7d\n" := rfl

/-- C13, as stated, fails: for the request `{"s":"abc"}` the body written is `{"v":"ABC"}`
and a newline, not `{"v":"ABC","err":""}`, with or without a newline after it, whatever the
tables of the library are. -/
theorem C13_Uppercase_body_counterexample :
    ¬ ∃ (caseTo : Char → Char) (escape : Char → String),
      responseBody escape (makeUppercaseEndpoint (svc caseTo)) (.uppercaseRequest ⟨"abc"⟩) ()
          = some "\x7b\"v\":\"ABC\",\"err\":\"\"\x7d" ∨
      responseBody escape (makeUppercaseEndpoint (svc caseTo)) (.uppercaseRequest ⟨"abc"⟩) ()
          = some "\x7b\"v\":\"ABC\",\"err\":\"\"\x7d\n" := by
  rintro ⟨caseTo, escape, h | h⟩
  · rw [Uppercase_body_abc] at h
    exact absurd h (by decide)
  · rw [Uppercase_body_abc] at h
    exact absurd h (by decide)

/-- C13, amended: through the Uppercase endpoint and `encodeResponse`, the request
`{"s":"abc"}` is answered with the body `{"v":"ABC"}` followed by a newline, an object whose
only member is "v"; the request `{"s":""}` is answered with
`{"v":"","err":"empty string"}` followed by a newline; and the object written for an
`uppercaseResponse` has an "err" member exactly when `Err` is not the empty string. -/
theorem C13_Uppercase_body (caseTo : Char → Char) (escape : Char → String) :
    responseBody escape (makeUppercaseEndpoint (svc caseTo)) (.uppercaseRequest ⟨"abc"⟩) ()
      = some "\x7b\"v\":\"ABC\"\x7d\n" ∧
    json.members (uppercaseResponse.fields escape ⟨"ABC", ""⟩) = [("v", "\"ABC\"")] ∧
    responseBody escape (makeUppercaseEndpoint (svc caseTo)) (.uppercaseRequest ⟨""⟩) ()
      = some "\x7b\"v\":\"\",\"err\":\"empty string\"\x7d\n" ∧
    json.members (uppercaseResponse.fields escape ⟨"", "empty string"⟩)
      = [("v", "\"\""), ("err", "\"empty string\"")] ∧
    ∀ r : uppercaseResponse,
      (∃ text : String, ("err", text) ∈ json.members (r.fields escape)) ↔ r.Err ≠ "" := by
  refine ⟨rfl, rfl, rfl, rfl, ?_⟩
  intro r
  have hV : ∀ (e : Bool) (t : String), StructField.exported ⟨"V", "v", false, e, t⟩ = true :=
    fun _ _ => rfl
  have hE : ∀ (e : Bool) (t : String), StructField.exported ⟨"Err", "err", true, e, t⟩ = true :=
    fun _ _ => rfl
  by_cases hr : r.Err = ""
  · have hm : json.members (r.fields escape) = [("v", json.string escape r.V)] := by
      simp [json.members, uppercaseResponse.fields, hV, hE, hr]
    rw [hm]
    simp [hr]
  · have hm : json.members (r.fields escape)
        = [("v", json.string escape r.V), ("err", json.string escape r.Err)] := by
      simp [json.members, uppercaseResponse.fields, hV, hE, hr]
    rw [hm]
    simp [hr]

/-- C14, evaluated on the code: for every implementation of the book service and every setbook
request, the body written for the response of the SetBook endpoint is `{}` followed by a
newline: the object has no member at all, so no "ok" member, because the only field of
`setBookResponse` is the unexported `ok`. -/
theorem C14_SetBook_body {σ : Type} (bkSvc : BookService σ) (escape : Char → String)
    (req : setBookRequest) (st : σ) :
    responseBody escape (makeSetBookEndpoint bkSvc) (.setBookRequest req) st
      = some "\x7b\x7d\n" ∧
    json.members (setBookResponse.fields ⟨true⟩) = [] := by
  refine ⟨?_, rfl⟩
  rcases hS : bkSvc.SetBook req.Book st with ⟨err, st2⟩
  cases err <;> simp only [responseBody, makeSetBookEndpoint, hS] <;> rfl

/-! ## The catalog over sequences of calls -/

theorem KeysMatchIDs_empty : KeysMatchIDs ∅ := by
  intro k b h
  rw [Finmap.lookup_empty] at h
  cases h

theorem KeysMatchIDs_insert (bm : Bookmap) (k : String) (b : Book) (hk : k = strconv.Itoa b.ID)
    (h : KeysMatchIDs bm) : KeysMatchIDs (bm.insert k b) := by
  intro k2 b2 h2
  by_cases hkk : k2 = k
  · subst hkk
    rw [Finmap.lookup_insert] at h2
    cases h2
    exact hk
  · rw [Finmap.lookup_insert_of_ne bm hkk] at h2
    exact h k2 b2 h2

theorem KeysMatchIDs_seedCatalog : KeysMatchIDs seedCatalog :=
  KeysMatchIDs_insert _ "2" seedBook2 (by decide)
    (KeysMatchIDs_insert _ "1" seedBook1 (by decide) KeysMatchIDs_empty)

theorem KeysMatchIDs_step (c : Call) (bm : Bookmap) (h : KeysMatchIDs bm) :
    KeysMatchIDs (c.step bm) := by
  cases c with
  | Books =>
    by_cases he : bm = ∅
    · subst he
      simp only [Call.step, Books_of_empty]
      exact KeysMatchIDs_seedCatalog
    · simp only [Call.step, Books_of_ne_empty bm he]
      exact h
  | GetBook id => exact h
  | SetBook book => exact KeysMatchIDs_insert bm _ book rfl h

theorem KeysMatchIDs_runCalls (calls : List Call) :
    ∀ bm : Bookmap, KeysMatchIDs bm → KeysMatchIDs (runCalls calls bm) := by
  induction calls with
  | nil => exact fun bm h => h
  | cons c calls ih => exact fun bm h => ih (c.step bm) (KeysMatchIDs_step c bm h)

/-- C15: in every catalog reached from the initial empty catalog by a sequence of `Books()`,
`GetBook(id)` and `SetBook(b)` calls, every entry is stored under the decimal string of the ID
of its Book, so two entries holding Books of the same ID are one and the same entry. -/
theorem C15_keys_match_IDs (calls : List Call) :
    (∀ (k : String) (b : Book),
      (runCalls calls bookmap).lookup k = some b → k = strconv.Itoa b.ID) ∧
    (∀ (k1 k2 : String) (b1 b2 : Book),
      (runCalls calls bookmap).lookup k1 = some b1 →
      (runCalls calls bookmap).lookup k2 = some b2 →
      b1.ID = b2.ID → k1 = k2 ∧ b1 = b2) := by
  have hinv : KeysMatchIDs (runCalls calls bookmap) :=
    KeysMatchIDs_runCalls calls bookmap KeysMatchIDs_empty
  refine ⟨hinv, ?_⟩
  intro k1 k2 b1 b2 h1 h2 hid
  have hk : k1 = k2 := by rw [hinv k1 b1 h1, hinv k2 b2 h2, hid]
  subst hk
  rw [h1] at h2
  exact ⟨rfl, Option.some.inj h2⟩

/-- C16: for every catalog state and every integer `id`, `GetBook(id)` leaves the catalog as
it was; so does every sequence of `GetBook` calls, and the initial empty catalog is still empty,
without the seed Books, after any number of them. -/
theorem C16_GetBook_keeps_catalog (bm : Bookmap) (id : Int) :
    (bookService.GetBook id bm).2 = bm ∧
    (∀ ids : List Int, runCalls (ids.map Call.GetBook) bm = bm) ∧
    (∀ ids : List Int, (runCalls (ids.map Call.GetBook) bookmap).len = 0) := by
  have hrun : ∀ (ids : List Int) (m : Bookmap), runCalls (ids.map Call.GetBook) m = m := by
    intro ids
    induction ids with
    | nil => exact fun m => rfl
    | cons i ids ih => exact fun m => ih m
  refine ⟨rfl, fun ids => hrun ids bm, fun ids => ?_⟩
  rw [hrun ids bookmap]
  decide

theorem runCalls_example :
    runCalls [.GetBook 1, .SetBook ⟨3, "Castle Roogna", "Piers Anthony", "1979", "Del Rey"⟩,
        .Books, .GetBook 3] bookmap
      = Finmap.singleton "3" ⟨3, "Castle Roogna", "Piers Anthony", "1979", "Del Rey"⟩ ∧
    runCalls [.GetBook 1, .Books, .SetBook seedBook2] bookmap = seedCatalog := by
  decide

theorem responseBody_examples (caseTo : Char → Char) (escape : Char → String) :
    responseBody escape (makeCountEndpoint (svc caseTo)) (.countRequest ⟨"hello"⟩) ()
      = some "\x7b\"v\":5\x7d\n" ∧
    responseBody escape (makeBookEndpoint bookSvc) (.getBookRequest ⟨1⟩) seedCatalog
      = some ("\x7b\"book\":\x7b\"ID\":1,\"Title\":\"A Spell for Chameleon\"," ++
          "\"Author\":\"Piers Anthony\",\"Date\":\"1977\",\"Publisher\":\" Del Rey \"\x7d\x7d\n") :=
  ⟨rfl, rfl⟩

theorem Bookmap.encode_singleton (escape : Char → String) (k : String) (b : Book) :
    Bookmap.encode escape (Finmap.singleton k b)
      = json.object escape [(k, b.encode escape)] := by
  simp only [Bookmap.encode, Finmap.keys_singleton, Finset.sort_singleton, List.filterMap_cons,
    List.filterMap_nil, Finmap.lookup_singleton_eq, Option.map_some']

theorem Books_body_example (escape : Char → String) :
    responseBody escape (makeBooksEndpoint bookSvc) (.booksRequest ⟨⟩)
        (Finmap.singleton "7" ⟨7, "T", "A", "D", "P"⟩)
      = some ("\x7b\"books\":\x7b\"7\":\x7b\"ID\":7,\"Title\":\"T\",\"Author\":\"A\"," ++
          "\"Date\":\"D\",\"Publisher\":\"P\"\x7d\x7d\x7d\n") := by
  have hB : bookService.Books (Finmap.singleton "7" ⟨7, "T", "A", "D", "P"⟩)
      = (Finmap.singleton "7" ⟨7, "T", "A", "D", "P"⟩,
          Finmap.singleton "7" ⟨7, "T", "A", "D", "P"⟩) :=
    Books_of_ne_empty _ (Bookmap.insert_ne_empty ∅ "7" ⟨7, "T", "A", "D", "P"⟩)
  have hlen : decide (Bookmap.len (Finmap.singleton "7" ⟨7, "T", "A", "D", "P"⟩) = 0) = false := by
    decide
  simp only [responseBody, makeBooksEndpoint, bookSvc, hB, encodeResponse, json.Marshal,
    Interface.fields, booksResponse.fields, Bookmap.encode_singleton, hlen]
  rfl

end Stringsrv
